import Mathlib

/-!
Shallow embedding of the vaccine supply-chain chaincode (raw materials,
vaccine batches, vaccine doses, shipments) and of its state-store and
query layers, with theorems settling the frozen claims about it.

Conventions of the embedding:
* JS `null`/`undefined`-able fields become `Option String`; string-typed
  transaction arguments become `String`.
* Each contract namespace keeps its records in its own `StateStore`,
  a map from composite key to record.
* A contract operation is a function from the store and the arguments to
  `Except JsError (StateStore _ × record)`: a thrown JS error becomes
  `Except.error`, and since a failed chaincode invocation does not commit,
  an error result carries no successor store.
* The invoking organization's identity (`ctx.clientIdentity.getMSPID()`)
  is passed to each operation as an explicit `ctxMspid` argument.
-/

/-- Errors thrown by the JS code: `throw new Error(msg)`, a `TypeError`
from calling a method that does not exist on the receiver (or from
dereferencing a property of `null`/`undefined`), and a `ReferenceError`
from evaluating an undeclared identifier. -/
inductive JsError : Type where
  | error (msg : String)
  | typeError (msg : String)
  | referenceError (msg : String)
deriving Repr, DecidableEq

/-- World-state namespace: a map from composite key to record. -/
def StateStore (α : Type) : Type := String → Option α

/-- The empty namespace. -/
def StateStore.empty {α : Type} : StateStore α := fun _ => none

/-- A single write to the backing key-value namespace (overwrite). -/
def StateStore.put {α : Type} (s : StateStore α) (k : String) (v : α) :
    StateStore α :=
  fun k' => if k' = k then some v else s k'

/-- Modelled from the spec: `ledger-api/state.js` is not under `src/`.
Per §4.1 `makeKey(parts)` deterministically joins the key parts in a
fixed documented order into one composite key string; the namespace
(type tag) is kept separate per `StateStore`. -/
def State.makeKey (parts : List String) : String :=
  String.intercalate ":" parts

/-- Modelled from the spec: `ledger-api/statelist.js` is not under `src/`.
Per §4.2 every mutating operation is a single logical write to the
backing namespace; the "already exists" checks are per-contract patterns
in the reference behavior (§4.2 parenthetical, §9), so `addState` itself
performs the write without a duplicate check. -/
def StateList.addState {α : Type} (s : StateStore α) (k : String) (v : α) :
    StateStore α :=
  s.put k v

/-- Modelled from the spec: `ledger-api/statelist.js` is not under `src/`.
Per §4.2, in the reference behavior a read of an absent key yields an
undefined record that callers may operate on (the fail-fast `NotFoundError`
is the corrected target design, §9), so `getState` returns `none` when the
key is absent. -/
def StateList.getState {α : Type} (s : StateStore α) (k : String) : Option α :=
  s k

/-- Modelled from the spec: `ledger-api/statelist.js` is not under `src/`.
Per §4.2 an update is a single logical write to the namespace (the
existence precondition is the corrected target design, §9). -/
def StateList.updateState {α : Type} (s : StateStore α) (k : String) (v : α) :
    StateStore α :=
  s.put k v

/-! ## RawMaterial (rawmaterial.js) -/

/-- RawMaterial record, per the `RawMaterial` class constructor:
`materialName`, `batchNumber`, `quantity`, `manufacturer`,
`manufactureDate` are supplied; `purchaser`, `purchaseDate`, `price`,
`dateMixedIn` and `mspid` are initialized to `null`. -/
structure RawMaterial : Type where
  materialName : String
  batchNumber : String
  quantity : String
  manufacturer : String
  manufactureDate : String
  purchaser : Option String
  purchaseDate : Option String
  price : Option String
  dateMixedIn : Option String
  mspid : Option String
deriving Repr, DecidableEq

/-- Factory `RawMaterial.createInstance`: builds the record from the five
supplied fields with the nullable fields `null` (constructor lines
setting `purchaser`, `purchaseDate`, `price`, `dateMixedIn`, `mspid`). -/
def RawMaterial.createInstance (materialName batchNumber quantity
    manufacturer manufactureDate : String) : RawMaterial :=
  { materialName := materialName
    batchNumber := batchNumber
    quantity := quantity
    manufacturer := manufacturer
    manufactureDate := manufactureDate
    purchaser := none
    purchaseDate := none
    price := none
    dateMixedIn := none
    mspid := none }

/-- Composite key of a raw material: `RawMaterial.makeKey([manufacturer,
batchNumber])` (manufacturer first, to allow by-manufacturer prefix
scans, per the constructor comment). -/
def RawMaterial.key (manufacturer batchNumber : String) : String :=
  State.makeKey [manufacturer, batchNumber]

/-- JS value of the exists-check `material && material.length > 0` in
`createMaterial`: when the key is absent, `material` is `null` and the
conjunction is falsy; when the key is present, `material` is a
deserialized `RawMaterial` instance, which has no `length` property, so
`material.length` is `undefined` and `undefined > 0` evaluates to
`false`. The conjunction is therefore `false` in both cases and the
"already exists" branch is unreachable. -/
def rawMaterialExistsCheck (material : Option RawMaterial) : Bool :=
  match material with
  | none => false
  | some _ => false

/-- RawMaterialContract.createMaterial (guarded variant): fetches the
record at `makeKey([manufacturer, batchNumber])`, runs the (ineffective)
exists-check, builds the instance, stamps the creator's MSP, and adds it
to the list. (This variant's source also redeclares `let material` in
the same scope; the embedding follows the statement-by-statement intent
of the function body.) -/
def createMaterial (store : StateStore RawMaterial) (ctxMspid materialName
    batchNumber quantity manufacturer manufactureDate : String) :
    Except JsError (StateStore RawMaterial × RawMaterial) :=
  let primaryKey := RawMaterial.key manufacturer batchNumber
  let material0 := StateList.getState store primaryKey
  if rawMaterialExistsCheck material0 then
    .error (.error ("Raw material " ++ batchNumber ++ " from " ++
      manufacturer ++ " already exists"))
  else
    let material := RawMaterial.createInstance materialName batchNumber
      quantity manufacturer manufactureDate
    let material := { material with mspid := some ctxMspid }
    .ok (StateList.addState store primaryKey material, material)

/-- RawMaterialContract.purchaseMaterial (guarded variant): fails when the
key is absent (`!material || material.length == 0`, which for a present
record is false since `undefined == 0` is false, and for an absent record
is true via `!material`); fails when `purchaser` is already non-null;
otherwise sets `purchaser`, `purchaseDate`, `price`, stamps the
purchaser's MSP and updates the record. -/
def purchaseMaterial (store : StateStore RawMaterial) (ctxMspid manufacturer
    batchNumber purchaser price purchaseDateTime : String) :
    Except JsError (StateStore RawMaterial × RawMaterial) :=
  let primaryKey := RawMaterial.key manufacturer batchNumber
  match StateList.getState store primaryKey with
  | none =>
    .error (.error ("Raw material " ++ batchNumber ++ " from " ++
      manufacturer ++ " doesn't exist"))
  | some material =>
    if material.purchaser ≠ none then
      .error (.error ("\nRaw material " ++ material.materialName ++
        " with batch number " ++ batchNumber ++ " manufactured by " ++
        manufacturer ++ " is already purchased"))
    else
      let material := { material with
        purchaser := some purchaser
        purchaseDate := some purchaseDateTime
        price := some price
        mspid := some ctxMspid }
      .ok (StateList.updateState store primaryKey material, material)

/-- RawMaterialContract.addMaterial: fetches the record (a `null` record
would be dereferenced by `material.getDateMixedIn()`, a `TypeError`),
fails when `dateMixedIn` is already non-null, otherwise sets
`dateMixedIn` and updates the record. It does not touch the owner-MSP
field. -/
def addMaterial (store : StateStore RawMaterial) (ctxMspid manufacturer
    batchNumber dateTimeAdded : String) :
    Except JsError (StateStore RawMaterial × RawMaterial) :=
  let _ := ctxMspid
  let primaryKey := RawMaterial.key manufacturer batchNumber
  match StateList.getState store primaryKey with
  | none =>
    .error (.typeError "Cannot read properties of null (reading getDateMixedIn)")
  | some material =>
    if material.dateMixedIn ≠ none then
      .error (.error ("\nRaw material " ++ material.materialName ++
        " with batch number " ++ batchNumber ++ " manufactured by " ++
        manufacturer ++ " is already used"))
    else
      let material := { material with dateMixedIn := some dateTimeAdded }
      .ok (StateList.updateState store primaryKey material, material)

/-! ## Shipment (shipment.js, ShipmentContract) -/

/-- Shipment state enumeration (`shipmentState` in shipment.js). -/
inductive ShipmentSt : Type where
  | LEFTSOURCE
  | ARRIVEDDEST
deriving Repr, DecidableEq

/-- Shipment record, per the `Shipment` class whose accessors the
`ShipmentContract` operations call (`setShipDateTime`, `setTimestamp`,
`setArrivalDateTime`, ...): `shipmentUUID`, `shipmentProvider`, `source`,
`destination` are supplied; `vehicleUUID`, `vehicleOperator`,
`currentLocation`, `currentTemp`, `timestamp`, `shipDateTime`,
`arrivalDateTime` and `mspid` are initialized to `null`; `currentState`
is not set by the constructor (it is `null` until a state setter runs). -/
structure Shipment : Type where
  shipmentUUID : String
  shipmentProvider : String
  source : String
  destination : String
  vehicleUUID : Option String
  vehicleOperator : Option String
  currentLocation : Option String
  currentTemp : Option String
  timestamp : Option String
  shipDateTime : Option String
  arrivalDateTime : Option String
  mspid : Option String
  currentState : Option ShipmentSt
deriving Repr, DecidableEq

/-- Factory `Shipment.createInstance`. -/
def Shipment.createInstance (shipmentUUID shipmentProvider source
    destination : String) : Shipment :=
  { shipmentUUID := shipmentUUID
    shipmentProvider := shipmentProvider
    source := source
    destination := destination
    vehicleUUID := none
    vehicleOperator := none
    currentLocation := none
    currentTemp := none
    timestamp := none
    shipDateTime := none
    arrivalDateTime := none
    mspid := none
    currentState := none }

/-- Composite key of a shipment: `Shipment.makeKey([shipmentUUID])`. -/
def Shipment.key (shipmentUUID : String) : String :=
  State.makeKey [shipmentUUID]

/-- ShipmentContract.orderShipment: builds the instance and adds it to
the list. The MSP-stamping block is commented out in the source, so the
stored record's `mspid` stays `null`. -/
def orderShipment (store : StateStore Shipment) (ctxMspid shipmentUUID
    shipmentProvider source destination : String) :
    Except JsError (StateStore Shipment × Shipment) :=
  let _ := ctxMspid
  let shipment := Shipment.createInstance shipmentUUID shipmentProvider
    source destination
  .ok (StateList.addState store (Shipment.key shipmentUUID) shipment, shipment)

/-- ShipmentContract.shipShipment: fetches the shipment (a `null` record
would be dereferenced by `shipment.getShipDateTime()`, a `TypeError`),
fails when `shipDateTime` is already non-null, otherwise sets state
LEFTSOURCE, `shipDateTime`, `vehicleUUID`, `vehicleOperator`,
`currentLocation` (to the supplied source), `currentTemp` and
`timestamp`, and updates the record. -/
def shipShipment (store : StateStore Shipment) (ctxMspid shipmentUUID
    vehicleUUID source timestamp vehicleOperator currentTemp : String) :
    Except JsError (StateStore Shipment × Shipment) :=
  let _ := ctxMspid
  let primaryKey := Shipment.key shipmentUUID
  match StateList.getState store primaryKey with
  | none =>
    .error (.typeError "Cannot read properties of null (reading getShipDateTime)")
  | some shipment =>
    if shipment.shipDateTime ≠ none then
      .error (.error ("\nShipment " ++ shipmentUUID ++
        " has already been shipped."))
    else
      let shipment := { shipment with
        currentState := some .LEFTSOURCE
        shipDateTime := some timestamp
        vehicleUUID := some vehicleUUID
        vehicleOperator := some vehicleOperator
        currentLocation := some source
        currentTemp := some currentTemp
        timestamp := some timestamp }
      .ok (StateList.updateState store primaryKey shipment, shipment)

/-- ShipmentContract.updateLocationTemp: fetches the shipment (a `null`
record would be dereferenced by `shipment.setCurrentLocation(...)`, a
`TypeError`), sets `currentLocation`, `currentTemp` and `timestamp`, and
updates the record. No guard, no state change, no MSP stamping. -/
def updateLocationTemp (store : StateStore Shipment) (ctxMspid shipmentUUID
    timestamp currentLocation currentTemp : String) :
    Except JsError (StateStore Shipment × Shipment) :=
  let _ := ctxMspid
  let primaryKey := Shipment.key shipmentUUID
  match StateList.getState store primaryKey with
  | none =>
    .error (.typeError "Cannot read properties of null (reading setCurrentLocation)")
  | some shipment =>
    let shipment := { shipment with
      currentLocation := some currentLocation
      currentTemp := some currentTemp
      timestamp := some timestamp }
    .ok (StateList.updateState store primaryKey shipment, shipment)

/-- ShipmentContract.shipmentArrival: fetches the shipment (a `null`
record would be dereferenced by `shipment.getArrivalDateTime()`, a
`TypeError`), fails when `arrivalDateTime` is already non-null, otherwise
sets state ARRIVEDDEST and `arrivalDateTime`, and updates the record. -/
def shipmentArrival (store : StateStore Shipment) (ctxMspid shipmentUUID
    timestamp : String) :
    Except JsError (StateStore Shipment × Shipment) :=
  let _ := ctxMspid
  let primaryKey := Shipment.key shipmentUUID
  match StateList.getState store primaryKey with
  | none =>
    .error (.typeError "Cannot read properties of null (reading getArrivalDateTime)")
  | some shipment =>
    if shipment.arrivalDateTime ≠ none then
      .error (.error ("\nShipment " ++ shipmentUUID ++
        " has already arrived."))
    else
      let shipment := { shipment with
        currentState := some .ARRIVEDDEST
        arrivalDateTime := some timestamp }
      .ok (StateList.updateState store primaryKey shipment, shipment)

/-! ## VaccineBatch (vaccinebatch.js, VaccineBatchContract) -/

/-- Vaccine batch state enumeration (`batchState` in vaccinebatch.js). -/
inductive BatchSt : Type where
  | SHIPPED
  | ARRIVED
  | ISSUED
  | WAREHOUSED
deriving Repr, DecidableEq

/-- VaccineBatch record, per the `VaccineBatch` class constructor (the
variant whose 5-argument `createInstance` the contract calls):
`vaccineName`, `batchNumber`, `quantity`, `manufacturer`,
`manufactureDate` are supplied; `purchaser` is initialized to the
manufacturer ("inital owner is manufacturer"); `purchaseDate`,
`currentState`, `approver`, `shippingProvider`, `shipmentUUID`,
`temperature`, `timestamp`, `entityAllocated` are initialized to `null`;
`ready` to `false`; `rawMaterialBatchSet` to an empty `Set` (modelled as
the list of inserted elements). `price` and `mspid` are NOT initialized
by the constructor (they stay `undefined` until `setPrice` /
`setOwnerMSP` runs), so they are `Option String` with `none` for
`undefined`. -/
structure VaccineBatch : Type where
  vaccineName : String
  batchNumber : String
  quantity : String
  manufacturer : String
  manufactureDate : String
  purchaser : Option String
  purchaseDate : Option String
  price : Option String
  currentState : Option BatchSt
  approver : Option String
  shippingProvider : Option String
  shipmentUUID : Option String
  temperature : Option String
  timestamp : Option String
  entityAllocated : Option String
  ready : Bool
  rawMaterialBatchSet : List String
  mspid : Option String
deriving Repr, DecidableEq

/-- Factory `VaccineBatch.createInstance` (5-argument variant). -/
def VaccineBatch.createInstance (vaccineName batchNumber quantity
    manufacturer manufactureDate : String) : VaccineBatch :=
  { vaccineName := vaccineName
    batchNumber := batchNumber
    quantity := quantity
    manufacturer := manufacturer
    manufactureDate := manufactureDate
    purchaser := some manufacturer
    purchaseDate := none
    price := none
    currentState := none
    approver := none
    shippingProvider := none
    shipmentUUID := none
    temperature := none
    timestamp := none
    entityAllocated := none
    ready := false
    rawMaterialBatchSet := []
    mspid := none }

/-- `VaccineBatch.addRawMaterial`: `this.rawMaterialBatchSet.add(material)`
(Set insertion; deduplicating). -/
def VaccineBatch.addRawMaterial (b : VaccineBatch) (material : String) :
    VaccineBatch :=
  if material ∈ b.rawMaterialBatchSet then b
  else { b with rawMaterialBatchSet := b.rawMaterialBatchSet ++ [material] }

/-- Composite key of a vaccine batch:
`VaccineBatch.makeKey([batchNumber, manufacturer])`. -/
def VaccineBatch.key (batchNumber manufacturer : String) : String :=
  State.makeKey [batchNumber, manufacturer]

namespace VaccineBatchContract

/-- VaccineBatchContract.issue: builds the instance, sets WAREHOUSED,
stamps the owner's MSP, and adds it to the list. There is no
already-exists check. -/
def issue (store : StateStore VaccineBatch) (ctxMspid vaccineName
    batchNumber quantity manufacturer manufactureDate : String) :
    Except JsError (StateStore VaccineBatch × VaccineBatch) :=
  let currVaccineBatch := VaccineBatch.createInstance vaccineName
    batchNumber quantity manufacturer manufactureDate
  let currVaccineBatch := { currVaccineBatch with
    currentState := some .WAREHOUSED
    mspid := some ctxMspid }
  .ok (StateList.addState store
    (VaccineBatch.key batchNumber manufacturer) currVaccineBatch,
    currVaccineBatch)

/-- VaccineBatchContract.buy: fetches the batch (a `null` record would be
dereferenced by `currVaccineBatch.getPurchaser()`, a `TypeError`); when
the stored purchaser differs from the supplied `currentOwner`
(`!==`, strict), the `throw` statement itself evaluates the undeclared
identifier `issuer` while building the message, raising a
`ReferenceError` - either way the call fails with an error and nothing is
persisted. Otherwise sets `purchaser` to `newOwner`, `purchaseDate` and
`price`, and updates the record; `currentState` and the owner-MSP field
are untouched. -/
def buy (store : StateStore VaccineBatch) (ctxMspid batchNumber
    manufacturer currentOwner newOwner price purchaseDateTime : String) :
    Except JsError (StateStore VaccineBatch × VaccineBatch) :=
  let _ := ctxMspid
  let vaccineBatchKey := VaccineBatch.key batchNumber manufacturer
  match StateList.getState store vaccineBatchKey with
  | none =>
    .error (.typeError "Cannot read properties of null (reading getPurchaser)")
  | some currVaccineBatch =>
    if currVaccineBatch.purchaser ≠ some currentOwner then
      .error (.referenceError "issuer is not defined")
    else
      let currVaccineBatch := { currVaccineBatch with
        purchaser := some newOwner
        purchaseDate := some purchaseDateTime
        price := some price }
      .ok (StateList.updateState store vaccineBatchKey currVaccineBatch,
        currVaccineBatch)

/-- VaccineBatchContract.ship: fetches the batch (a `null` record would
be dereferenced by `setShippingProvider`, a `TypeError`), sets
`shippingProvider`, `shipmentUUID` and state SHIPPED, and updates the
record. No guard on the prior state, no MSP stamping. -/
def ship (store : StateStore VaccineBatch) (ctxMspid batchNumber
    manufacturer shippingProvider shipmentUUID : String) :
    Except JsError (StateStore VaccineBatch × VaccineBatch) :=
  let _ := ctxMspid
  let vaccineBatchKey := VaccineBatch.key batchNumber manufacturer
  match StateList.getState store vaccineBatchKey with
  | none =>
    .error (.typeError "Cannot read properties of null (reading setShippingProvider)")
  | some currVaccineBatch =>
    let currVaccineBatch := { currVaccineBatch with
      shippingProvider := some shippingProvider
      shipmentUUID := some shipmentUUID
      currentState := some .SHIPPED }
    .ok (StateList.updateState store vaccineBatchKey currVaccineBatch,
      currVaccineBatch)

/-- VaccineBatchContract.arrived: fetches the batch (a `null` record
would be dereferenced by `setArrived`, a `TypeError`), sets state ARRIVED
and updates the record. No guard on the prior state, no MSP stamping. -/
def arrived (store : StateStore VaccineBatch) (ctxMspid batchNumber
    manufacturer arrivalDate : String) :
    Except JsError (StateStore VaccineBatch × VaccineBatch) :=
  let _ := ctxMspid
  let _ := arrivalDate
  let vaccineBatchKey := VaccineBatch.key batchNumber manufacturer
  match StateList.getState store vaccineBatchKey with
  | none =>
    .error (.typeError "Cannot read properties of null (reading setArrived)")
  | some currVaccineBatch =>
    let currVaccineBatch := { currVaccineBatch with
      currentState := some .ARRIVED }
    .ok (StateList.updateState store vaccineBatchKey currVaccineBatch,
      currVaccineBatch)

end VaccineBatchContract

/-! ## Vaccine (vaccine.js, VaccineContract) -/

/-- Vaccine dose state enumeration (`vaccineState` in vaccine.js). -/
inductive VaccineSt : Type where
  | READY
  | ISSUED
  | EXPIRED
deriving Repr, DecidableEq

/-- Vaccine dose record, per the `Vaccine` class constructor:
`vaccineUUID`, `batchNum`, `expirationDateTime`, `manufacturer` are
supplied; `issueDateTime`, `currentState`, `issuer`, `recipient` are
initialized to `null`; `mspid` is not initialized (`undefined` until
`setOwnerMSP`). -/
structure Vaccine : Type where
  vaccineUUID : String
  batchNum : String
  expirationDateTime : String
  manufacturer : String
  issueDateTime : Option String
  currentState : Option VaccineSt
  issuer : Option String
  recipient : Option String
  mspid : Option String
deriving Repr, DecidableEq

/-- Factory `Vaccine.createInstance`. -/
def Vaccine.createInstance (vaccineUUID batchNum expirationDateTime
    manufacturer : String) : Vaccine :=
  { vaccineUUID := vaccineUUID
    batchNum := batchNum
    expirationDateTime := expirationDateTime
    manufacturer := manufacturer
    issueDateTime := none
    currentState := none
    issuer := none
    recipient := none
    mspid := none }

/-- `Vaccine.setIssued`: `this.currentState = vaccineState.ISSUED`. -/
def Vaccine.setIssued (v : Vaccine) : Vaccine :=
  { v with currentState := some .ISSUED }

/-- `Vaccine.setIssuer`. -/
def Vaccine.setIssuer (v : Vaccine) (newIssuer : String) : Vaccine :=
  { v with issuer := some newIssuer }

/-- `Vaccine.setRecipient`. -/
def Vaccine.setRecipient (v : Vaccine) (newRecipient : String) : Vaccine :=
  { v with recipient := some newRecipient }

namespace VaccineContract

/-- VaccineContract.issue: builds the instance, runs `setIssued`,
`setIssuer`, `setRecipient` on it, and then calls
`currVaccine.setIssueDateTime(issueDateTime)` - but the `Vaccine` class
defines no `setIssueDateTime` method (nor does the `State` base class),
so this call raises `TypeError: currVaccine.setIssueDateTime is not a
function` before the MSP is stamped and before anything is persisted.
Every invocation of `issue` therefore fails. -/
def issue (store : StateStore Vaccine) (ctxMspid vaccineUUID batchNum
    manufacturer issuer recipient expirationDateTime issueDateTime : String) :
    Except JsError (StateStore Vaccine × Vaccine) :=
  let _ := store
  let _ := ctxMspid
  let _ := issueDateTime
  let currVaccine := Vaccine.createInstance vaccineUUID batchNum
    expirationDateTime manufacturer
  let currVaccine := currVaccine.setIssued
  let currVaccine := currVaccine.setIssuer issuer
  let currVaccine := currVaccine.setRecipient recipient
  let _ := currVaccine
  .error (.typeError "currVaccine.setIssueDateTime is not a function")

end VaccineContract

/-! ## Serialization (toBuffer / deserialize round trip)

Each asset class serializes itself with `JSON.stringify(this)` (its
`toBuffer`), and deserializes with `State.deserializeClass(data, C)`,
which parses the JSON and rebuilds the object by invoking the subtype
constructor `new C(json)` on the parsed attributes (the polymorphic
decode of spec §4.1; `state.js` itself is not under `src/`, so the
construct-from-parsed-attributes glue is modelled from the spec's
"deserialization must reconstruct the exact asset subtype", while the
constructors it invokes are the ones embedded above from `src/`).
The serialized form of each class is modelled as a structure with one
field per JSON field; an `Option` field with `none` stands for JSON
`null` (or for an absent field where the constructor leaves the property
undefined, which `JSON.stringify` omits). -/

/-- Serialized form of a RawMaterial: the JSON fields emitted by
`JSON.stringify` (`class` and `key` come from the `State` base). -/
structure RawMaterialJson : Type where
  stateClass : String
  key : String
  materialName : String
  batchNumber : String
  quantity : String
  manufacturer : String
  manufactureDate : String
  purchaser : Option String
  purchaseDate : Option String
  price : Option String
  dateMixedIn : Option String
  mspid : Option String
deriving Repr, DecidableEq

/-- `RawMaterial.toBuffer` = `JSON.stringify(this)`: a structural copy of
every property. -/
def RawMaterial.serialize (m : RawMaterial) : RawMaterialJson :=
  { stateClass := "org.vaccine.rawmaterial"
    key := RawMaterial.key m.manufacturer m.batchNumber
    materialName := m.materialName
    batchNumber := m.batchNumber
    quantity := m.quantity
    manufacturer := m.manufacturer
    manufactureDate := m.manufactureDate
    purchaser := m.purchaser
    purchaseDate := m.purchaseDate
    price := m.price
    dateMixedIn := m.dateMixedIn
    mspid := m.mspid }

/-- `RawMaterial.deserialize` = `new RawMaterial(JSON.parse(data))`: the
constructor first `Object.assign`s every parsed field onto the object and
then re-initializes `purchaser`, `purchaseDate`, `price`, `dateMixedIn`
and `mspid` to `null`, discarding whatever the parsed JSON held there. -/
def RawMaterial.deserialize (j : RawMaterialJson) : RawMaterial :=
  let assigned : RawMaterial :=
    { materialName := j.materialName
      batchNumber := j.batchNumber
      quantity := j.quantity
      manufacturer := j.manufacturer
      manufactureDate := j.manufactureDate
      purchaser := j.purchaser
      purchaseDate := j.purchaseDate
      price := j.price
      dateMixedIn := j.dateMixedIn
      mspid := j.mspid }
  { assigned with
    purchaser := none
    purchaseDate := none
    price := none
    dateMixedIn := none
    mspid := none }

/-- Serialized form of a VaccineBatch. `rawMaterialBatchSet` is a JS
`Set`, which `JSON.stringify` serializes as an empty JSON object with no
elements - so the serialized form carries no information about the set's
contents, modelled as `Unit`. -/
structure VaccineBatchJson : Type where
  stateClass : String
  key : String
  vaccineName : String
  batchNumber : String
  quantity : String
  manufacturer : String
  manufactureDate : String
  purchaser : Option String
  purchaseDate : Option String
  price : Option String
  currentState : Option BatchSt
  approver : Option String
  shippingProvider : Option String
  shipmentUUID : Option String
  temperature : Option String
  timestamp : Option String
  entityAllocated : Option String
  ready : Bool
  rawMaterialBatchSet : Unit
  mspid : Option String
deriving Repr, DecidableEq

/-- `VaccineBatch.toBuffer` = `JSON.stringify(this)`: a structural copy
of every property, except that the `Set`-valued `rawMaterialBatchSet`
encodes as an empty JSON object, losing its elements. -/
def VaccineBatch.serialize (b : VaccineBatch) : VaccineBatchJson :=
  { stateClass := "org.vaccine.vaccineBatch"
    key := VaccineBatch.key b.batchNumber b.manufacturer
    vaccineName := b.vaccineName
    batchNumber := b.batchNumber
    quantity := b.quantity
    manufacturer := b.manufacturer
    manufactureDate := b.manufactureDate
    purchaser := b.purchaser
    purchaseDate := b.purchaseDate
    price := b.price
    currentState := b.currentState
    approver := b.approver
    shippingProvider := b.shippingProvider
    shipmentUUID := b.shipmentUUID
    temperature := b.temperature
    timestamp := b.timestamp
    entityAllocated := b.entityAllocated
    ready := b.ready
    rawMaterialBatchSet := ()
    mspid := b.mspid }

/-- `VaccineBatch.deserialize` = `new VaccineBatch(JSON.parse(data))`:
after `Object.assign`, the constructor sets `purchaser` to
`obj.manufacturer`, re-nulls `purchaseDate`, `currentState`, `approver`,
`shippingProvider`, `shipmentUUID`, `temperature`, `timestamp`,
`entityAllocated`, resets `ready` to `false` and `rawMaterialBatchSet`
to a fresh empty `Set`; `price` and `mspid` are not re-initialized, so
the assigned JSON values survive. -/
def VaccineBatch.deserialize (j : VaccineBatchJson) : VaccineBatch :=
  { vaccineName := j.vaccineName
    batchNumber := j.batchNumber
    quantity := j.quantity
    manufacturer := j.manufacturer
    manufactureDate := j.manufactureDate
    purchaser := some j.manufacturer
    purchaseDate := none
    price := j.price
    currentState := none
    approver := none
    shippingProvider := none
    shipmentUUID := none
    temperature := none
    timestamp := none
    entityAllocated := none
    ready := false
    rawMaterialBatchSet := []
    mspid := j.mspid }

/-- Serialized form of a Vaccine dose. -/
structure VaccineJson : Type where
  stateClass : String
  key : String
  vaccineUUID : String
  batchNum : String
  expirationDateTime : String
  manufacturer : String
  issueDateTime : Option String
  currentState : Option VaccineSt
  issuer : Option String
  recipient : Option String
  mspid : Option String
deriving Repr, DecidableEq

/-- `Vaccine.toBuffer` = `JSON.stringify(this)`. -/
def Vaccine.serialize (v : Vaccine) : VaccineJson :=
  { stateClass := "org.vaccine.vaccine"
    key := State.makeKey [v.vaccineUUID]
    vaccineUUID := v.vaccineUUID
    batchNum := v.batchNum
    expirationDateTime := v.expirationDateTime
    manufacturer := v.manufacturer
    issueDateTime := v.issueDateTime
    currentState := v.currentState
    issuer := v.issuer
    recipient := v.recipient
    mspid := v.mspid }

/-- `Vaccine.deserialize` = `new Vaccine(JSON.parse(data))`: after
`Object.assign`, the constructor re-nulls `issueDateTime`,
`currentState`, `issuer` and `recipient`; `mspid` is not re-initialized
and survives. -/
def Vaccine.deserialize (j : VaccineJson) : Vaccine :=
  { vaccineUUID := j.vaccineUUID
    batchNum := j.batchNum
    expirationDateTime := j.expirationDateTime
    manufacturer := j.manufacturer
    issueDateTime := none
    currentState := none
    issuer := none
    recipient := none
    mspid := j.mspid }

/-- Serialized form of a Shipment. -/
structure ShipmentJson : Type where
  stateClass : String
  key : String
  shipmentUUID : String
  shipmentProvider : String
  source : String
  destination : String
  vehicleUUID : Option String
  vehicleOperator : Option String
  currentLocation : Option String
  currentTemp : Option String
  timestamp : Option String
  shipDateTime : Option String
  arrivalDateTime : Option String
  mspid : Option String
  currentState : Option ShipmentSt
deriving Repr, DecidableEq

/-- `Shipment.toBuffer` = `JSON.stringify(this)`. -/
def Shipment.serialize (s : Shipment) : ShipmentJson :=
  { stateClass := "org.vaccine.shipment"
    key := Shipment.key s.shipmentUUID
    shipmentUUID := s.shipmentUUID
    shipmentProvider := s.shipmentProvider
    source := s.source
    destination := s.destination
    vehicleUUID := s.vehicleUUID
    vehicleOperator := s.vehicleOperator
    currentLocation := s.currentLocation
    currentTemp := s.currentTemp
    timestamp := s.timestamp
    shipDateTime := s.shipDateTime
    arrivalDateTime := s.arrivalDateTime
    mspid := s.mspid
    currentState := s.currentState }

/-- `Shipment.deserialize` = `new Shipment(JSON.parse(data))`: after
`Object.assign`, the constructor re-nulls `vehicleUUID`,
`vehicleOperator`, `currentLocation`, `currentTemp`, `timestamp`,
`shipDateTime`, `arrivalDateTime` and `mspid`; `currentState` is not in
the constructor's re-initialization list and survives. -/
def Shipment.deserialize (j : ShipmentJson) : Shipment :=
  { shipmentUUID := j.shipmentUUID
    shipmentProvider := j.shipmentProvider
    source := j.source
    destination := j.destination
    vehicleUUID := none
    vehicleOperator := none
    currentLocation := none
    currentTemp := none
    timestamp := none
    shipDateTime := none
    arrivalDateTime := none
    mspid := none
    currentState := j.currentState }

/-! ## Query result materialization (getAllResults)

`RawMaterialQueryUtils.getAllResults` and
`VaccineBatchQueryUtils.getAllResults` (textually identical) drain a
result iterator into an array. The iterator is modelled as the list of
responses its successive `next()` calls produce; a fabric iterator's
final `next()` on exhaustion resolves to a response with `done: true`
and no `value`. The embedding returns the materialized array (or the
thrown error) together with a flag recording whether `iterator.close()`
was invoked on that execution. -/

/-- One key/value (or history) entry carried by an iterator response. -/
structure IterVal : Type where
  key : String
  txId : String
  timestampSeconds : Int
  timestampNanos : Int
  isDelete : Bool
  value : String
deriving Repr, DecidableEq

/-- One response of `iterator.next()`: an optional entry plus the `done`
flag. -/
structure IterStep : Type where
  value : Option IterVal
  done : Bool
deriving Repr, DecidableEq

/-- One element of the materialized result array (`jsonRes`): for
non-history queries a Key/Record pair (the `JSON.parse` of the record,
or - since the parse failure is caught - the raw string; the embedding
keeps the raw string); for history queries TxId/Timestamp plus either
the IsDelete marker or the Value. -/
inductive QueryRes : Type where
  | record (Key : String) (Record : String)
  | histDelete (TxId : String) (TimestampMs : Int) (IsDelete : String)
  | histValue (TxId : String) (TimestampMs : Int) (Value : String)
deriving Repr, DecidableEq

/-- The `jsonRes` built from one present iterator entry: the history
branch computes the timestamp as `new Date(seconds * 1000)` with the
milliseconds set to `nanos / 1000000`, and emits `IsDelete` (the
stringified flag) when `is_delete` is truthy, else the parsed `Value`;
the non-history branch emits Key and Record. -/
def processEntry (isHistory : Bool) (v : IterVal) : QueryRes :=
  if isHistory then
    let ms : Int := v.timestampSeconds * 1000 + v.timestampNanos / 1000000
    if v.isDelete then .histDelete v.txId ms "true"
    else .histValue v.txId ms v.value
  else .record v.key v.value

/-- Loop body of `getAllResults`: each turn awaits `iterator.next()` and
immediately logs `res.value.value` (and its `toString()`) BEFORE the
`if (res.value && ...)` null check - so a response with no `value` (the
exhausted iterator's final response) raises a `TypeError` out of the
loop, and since there is no try/finally, `iterator.close()` (reached
only through the `if (res.done)` return path) is skipped. The returned
flag records whether `close()` ran. -/
def getAllResultsAux : List IterStep → Bool → List QueryRes →
    (Except JsError (List QueryRes)) × Bool
  | [], _, _ =>
    -- next() on a fully consumed iterator: { done: true } with no value;
    -- the unconditional log dereferences res.value.value first.
    (.error (.typeError "Cannot read properties of undefined (reading value)"),
      false)
  | step :: rest, isHistory, allResults =>
    match step.value with
    | none =>
      (.error (.typeError "Cannot read properties of undefined (reading value)"),
        false)
    | some v =>
      let allResults :=
        if v.value ≠ "" then allResults ++ [processEntry isHistory v]
        else allResults
      if step.done then (.ok allResults, true)
      else getAllResultsAux rest isHistory allResults

/-- `getAllResults(iterator, isHistory)`: materialize all results,
returning the array (or the escaped error) and whether the iterator was
closed. -/
def getAllResults (steps : List IterStep) (isHistory : Bool) :
    (Except JsError (List QueryRes)) × Bool :=
  getAllResultsAux steps isHistory []

/-! ## Helper lemmas -/

/-- The exists-check of `createMaterial` evaluates to `false` whether or
not the record exists (JS: `undefined > 0` is `false`). -/
theorem rawMaterialExistsCheck_eq_false (m : Option RawMaterial) :
    rawMaterialExistsCheck m = false := by
  cases m <;> rfl

/-- Reading back the key just written. -/
theorem getState_put_self {α : Type} (s : StateStore α) (k : String) (v : α) :
    StateList.getState (StateStore.put s k v) k = some v := by
  simp [StateList.getState, StateStore.put]

/-- A write leaves every other key unchanged. -/
theorem put_other {α : Type} (s : StateStore α) (k k' : String) (v : α)
    (h : k' ≠ k) : StateStore.put s k v k' = s k' := by
  simp [StateStore.put, h]

/-! ## Claims -/

/-- C7: the Vaccine issue operation is claimed to create a dose that in
one step has currentState=ISSUED, issuer, recipient and issueDateTime
set, and to return that record; on the code, every invocation instead
raises a TypeError at `currVaccine.setIssueDateTime(issueDateTime)`
(the `Vaccine` class defines no such method), before anything is
persisted. -/
theorem c7_issue_always_raises_typeError (store : StateStore Vaccine)
    (ctxMspid vaccineUUID batchNum manufacturer issuer recipient
      expirationDateTime issueDateTime : String) :
    VaccineContract.issue store ctxMspid vaccineUUID batchNum manufacturer
      issuer recipient expirationDateTime issueDateTime =
      .error (.typeError "currVaccine.setIssueDateTime is not a function") :=
  rfl

/-- C5: creating a RawMaterial and then fetching it by the composite key
(manufacturer, batchNumber) returns a record with purchaser, purchaseDate,
price and dateMixedIn null and all supplied fields intact. -/
theorem c5_create_then_fetch (store : StateStore RawMaterial)
    (ctxMspid materialName batchNumber quantity manufacturer
      manufactureDate : String)
    (hfresh : StateList.getState store
      (RawMaterial.key manufacturer batchNumber) = none) :
    ∃ s1 m, createMaterial store ctxMspid materialName batchNumber quantity
        manufacturer manufactureDate = .ok (s1, m) ∧
      StateList.getState s1 (RawMaterial.key manufacturer batchNumber) =
        some m ∧
      m.materialName = materialName ∧ m.batchNumber = batchNumber ∧
      m.quantity = quantity ∧ m.manufacturer = manufacturer ∧
      m.manufactureDate = manufactureDate ∧
      m.purchaser = none ∧ m.purchaseDate = none ∧ m.price = none ∧
      m.dateMixedIn = none := by
  have hres : createMaterial store ctxMspid materialName batchNumber quantity
      manufacturer manufactureDate =
      .ok (StateStore.put store (RawMaterial.key manufacturer batchNumber)
          { RawMaterial.createInstance materialName batchNumber quantity
              manufacturer manufactureDate with mspid := some ctxMspid },
        { RawMaterial.createInstance materialName batchNumber quantity
            manufacturer manufactureDate with mspid := some ctxMspid }) := by
    simp [createMaterial, rawMaterialExistsCheck_eq_false, StateList.addState]
  exact ⟨_, _, hres, getState_put_self _ _ _, rfl, rfl, rfl, rfl, rfl, rfl,
    rfl, rfl, rfl⟩

/-- C5 witness: a concrete fresh creation. -/
theorem c5_witness :
    StateList.getState (StateStore.empty (α := RawMaterial))
      (RawMaterial.key "M1" "B1") = none ∧
    (∃ s1 m, createMaterial StateStore.empty "Org1MSP" "sucrose" "B1" "10"
        "M1" "2021-01-01" = .ok (s1, m) ∧
      StateList.getState s1 (RawMaterial.key "M1" "B1") = some m ∧
      m.materialName = "sucrose" ∧ m.batchNumber = "B1" ∧
      m.quantity = "10" ∧ m.manufacturer = "M1" ∧
      m.manufactureDate = "2021-01-01" ∧
      m.purchaser = none ∧ m.purchaseDate = none ∧ m.price = none ∧
      m.dateMixedIn = none) :=
  ⟨rfl, c5_create_then_fetch StateStore.empty "Org1MSP" "sucrose" "B1" "10"
    "M1" "2021-01-01" rfl⟩

/-- C2: on a stored RawMaterial whose purchaser is non-null every
purchaseMaterial call fails; on one whose purchaser is null the call
succeeds, sets purchaser, purchaseDate and price, stores the result, and
a second purchase attempt on the same key fails (so the stored record
keeps exactly what the first successful purchase set). -/
theorem c2_purchase_exactly_once (store : StateStore RawMaterial)
    (manufacturer batchNumber : String) (m : RawMaterial)
    (hm : StateList.getState store
      (RawMaterial.key manufacturer batchNumber) = some m) :
    (m.purchaser ≠ none → ∀ ctx2 purchaser2 price2 date2,
      ∃ e, purchaseMaterial store ctx2 manufacturer batchNumber purchaser2
        price2 date2 = .error e) ∧
    (m.purchaser = none → ∀ ctx1 purchaser1 price1 date1,
      ∃ s1 m1, purchaseMaterial store ctx1 manufacturer batchNumber
          purchaser1 price1 date1 = .ok (s1, m1) ∧
        m1.purchaser = some purchaser1 ∧ m1.purchaseDate = some date1 ∧
        m1.price = some price1 ∧
        StateList.getState s1 (RawMaterial.key manufacturer batchNumber) =
          some m1 ∧
        ∀ ctx2 purchaser2 price2 date2,
          ∃ e, purchaseMaterial s1 ctx2 manufacturer batchNumber purchaser2
            price2 date2 = .error e) := by
  constructor
  · intro hp ctx2 purchaser2 price2 date2
    refine ⟨.error ("\nRaw material " ++ m.materialName ++
      " with batch number " ++ batchNumber ++ " manufactured by " ++
      manufacturer ++ " is already purchased"), ?_⟩
    simp only [purchaseMaterial, hm]
    rw [if_pos hp]
  · intro hp ctx1 purchaser1 price1 date1
    have hres : purchaseMaterial store ctx1 manufacturer batchNumber
        purchaser1 price1 date1 =
        .ok (StateStore.put store (RawMaterial.key manufacturer batchNumber)
            { m with
              purchaser := some purchaser1
              purchaseDate := some date1
              price := some price1
              mspid := some ctx1 },
          { m with
            purchaser := some purchaser1
            purchaseDate := some date1
            price := some price1
            mspid := some ctx1 }) := by
      simp only [purchaseMaterial, hm]
      rw [if_neg (by simp [hp])]
      rfl
    refine ⟨_, _, hres, rfl, rfl, rfl, getState_put_self _ _ _, ?_⟩
    intro ctx2 purchaser2 price2 date2
    refine ⟨.error ("\nRaw material " ++ m.materialName ++
      " with batch number " ++ batchNumber ++ " manufactured by " ++
      manufacturer ++ " is already purchased"), ?_⟩
    simp [purchaseMaterial, getState_put_self]

/-- Fixture for the C2 witness: a stored, not yet purchased raw
material. -/
def c2material : RawMaterial :=
  RawMaterial.createInstance "sucrose" "B2" "10" "M2" "2021-01-01"

/-- Fixture store holding `c2material`. -/
def c2store : StateStore RawMaterial :=
  StateStore.empty.put (RawMaterial.key "M2" "B2") c2material

/-- C2 witness: the double-purchase theorem applied to a concrete store. -/
theorem c2_witness :
    StateList.getState c2store (RawMaterial.key "M2" "B2") = some c2material ∧
    c2material.purchaser = none ∧
    (∃ s1 m1, purchaseMaterial c2store "Org2MSP" "M2" "B2" "Pfizer" "500"
        "2021-02-02" = .ok (s1, m1) ∧
      m1.purchaser = some "Pfizer" ∧ m1.purchaseDate = some "2021-02-02" ∧
      m1.price = some "500" ∧
      StateList.getState s1 (RawMaterial.key "M2" "B2") = some m1 ∧
      ∀ ctx2 purchaser2 price2 date2, ∃ e,
        purchaseMaterial s1 ctx2 "M2" "B2" purchaser2 price2 date2 =
          .error e) := by
  have hm : StateList.getState c2store (RawMaterial.key "M2" "B2") =
      some c2material := by decide
  exact ⟨hm, rfl, (c2_purchase_exactly_once c2store "M2" "B2" c2material
    hm).2 rfl "Org2MSP" "Pfizer" "500" "2021-02-02"⟩

/-- C3: ordering a shipment leaves shipDateTime and arrivalDateTime null;
shipShipment succeeds on a stored shipment with shipDateTime null,
setting shipDateTime and currentState=LEFTSOURCE, and a second
shipShipment on the same key then fails; shipmentArrival succeeds on a
stored shipment with arrivalDateTime null, setting arrivalDateTime and
currentState=ARRIVEDDEST, and a second shipmentArrival then fails. -/
theorem c3_shipment_lifecycle :
    (∀ (store : StateStore Shipment) ctx uuid provider src dst,
      ∃ s1 sh, orderShipment store ctx uuid provider src dst = .ok (s1, sh) ∧
        sh.shipDateTime = none ∧ sh.arrivalDateTime = none ∧
        StateList.getState s1 (Shipment.key uuid) = some sh) ∧
    (∀ (store : StateStore Shipment) uuid (sh : Shipment),
      StateList.getState store (Shipment.key uuid) = some sh →
      sh.shipDateTime = none →
      ∀ ctx veh src ts op temp,
        ∃ s1 sh1, shipShipment store ctx uuid veh src ts op temp =
            .ok (s1, sh1) ∧
          sh1.shipDateTime = some ts ∧
          sh1.currentState = some .LEFTSOURCE ∧
          StateList.getState s1 (Shipment.key uuid) = some sh1 ∧
          ∀ ctx2 veh2 src2 ts2 op2 temp2, ∃ e,
            shipShipment s1 ctx2 uuid veh2 src2 ts2 op2 temp2 = .error e) ∧
    (∀ (store : StateStore Shipment) uuid (sh : Shipment),
      StateList.getState store (Shipment.key uuid) = some sh →
      sh.arrivalDateTime = none →
      ∀ ctx ts,
        ∃ s1 sh1, shipmentArrival store ctx uuid ts = .ok (s1, sh1) ∧
          sh1.arrivalDateTime = some ts ∧
          sh1.currentState = some .ARRIVEDDEST ∧
          StateList.getState s1 (Shipment.key uuid) = some sh1 ∧
          ∀ ctx2 ts2, ∃ e,
            shipmentArrival s1 ctx2 uuid ts2 = .error e) := by
  refine ⟨?_, ?_, ?_⟩
  · intro store ctx uuid provider src dst
    exact ⟨_, _, rfl, rfl, rfl, getState_put_self _ _ _⟩
  · intro store uuid sh hsh h0 ctx veh src ts op temp
    have hres : shipShipment store ctx uuid veh src ts op temp =
        .ok (StateStore.put store (Shipment.key uuid)
            { sh with
              currentState := some .LEFTSOURCE
              shipDateTime := some ts
              vehicleUUID := some veh
              vehicleOperator := some op
              currentLocation := some src
              currentTemp := some temp
              timestamp := some ts },
          { sh with
            currentState := some .LEFTSOURCE
            shipDateTime := some ts
            vehicleUUID := some veh
            vehicleOperator := some op
            currentLocation := some src
            currentTemp := some temp
            timestamp := some ts }) := by
      simp only [shipShipment, hsh]
      rw [if_neg (by simp [h0])]
      rfl
    refine ⟨_, _, hres, rfl, rfl, getState_put_self _ _ _, ?_⟩
    intro ctx2 veh2 src2 ts2 op2 temp2
    refine ⟨.error ("\nShipment " ++ uuid ++
      " has already been shipped."), ?_⟩
    simp [shipShipment, getState_put_self]
  · intro store uuid sh hsh h0 ctx ts
    have hres : shipmentArrival store ctx uuid ts =
        .ok (StateStore.put store (Shipment.key uuid)
            { sh with
              currentState := some .ARRIVEDDEST
              arrivalDateTime := some ts },
          { sh with
            currentState := some .ARRIVEDDEST
            arrivalDateTime := some ts }) := by
      simp only [shipmentArrival, hsh]
      rw [if_neg (by simp [h0])]
      rfl
    refine ⟨_, _, hres, rfl, rfl, getState_put_self _ _ _, ?_⟩
    intro ctx2 ts2
    refine ⟨.error ("\nShipment " ++ uuid ++ " has already arrived."), ?_⟩
    simp [shipmentArrival, getState_put_self]

/-- Fixture for the C3 witness: a freshly ordered shipment. -/
def c3ship : Shipment := Shipment.createInstance "S1" "FedEx" "NYC" "BOS"

/-- Fixture store holding `c3ship`. -/
def c3store : StateStore Shipment :=
  StateStore.empty.put (Shipment.key "S1") c3ship

/-- C3 witness: the ship-once conjunct applied to a concrete stored
shipment. -/
theorem c3_witness :
    StateList.getState c3store (Shipment.key "S1") = some c3ship ∧
    c3ship.shipDateTime = none ∧
    (∃ s1 sh1, shipShipment c3store "Org3MSP" "S1" "V1" "NYC" "2021-03-01"
        "Bo" "5" = .ok (s1, sh1) ∧
      sh1.shipDateTime = some "2021-03-01" ∧
      sh1.currentState = some .LEFTSOURCE ∧
      StateList.getState s1 (Shipment.key "S1") = some sh1 ∧
      ∀ ctx2 veh2 src2 ts2 op2 temp2, ∃ e,
        shipShipment s1 ctx2 "S1" veh2 src2 ts2 op2 temp2 = .error e) := by
  have hsh : StateList.getState c3store (Shipment.key "S1") = some c3ship :=
    by decide
  exact ⟨hsh, rfl, c3_shipment_lifecycle.2.1 c3store "S1" c3ship hsh rfl
    "Org3MSP" "V1" "NYC" "2021-03-01" "Bo" "5"⟩

/-- C9: a call to updateLocationTemp on an existing shipment (in any
state) changes only currentLocation, currentTemp and timestamp; every
other field of the record, and every other key of the namespace, is
unchanged. -/
theorem c9_updateLocationTemp_frame (store : StateStore Shipment)
    (ctx uuid ts loc temp : String) (sh : Shipment)
    (hsh : StateList.getState store (Shipment.key uuid) = some sh) :
    ∃ s1 sh1, updateLocationTemp store ctx uuid ts loc temp =
        .ok (s1, sh1) ∧
      sh1.currentLocation = some loc ∧ sh1.currentTemp = some temp ∧
      sh1.timestamp = some ts ∧
      sh1.currentState = sh.currentState ∧
      sh1.shipDateTime = sh.shipDateTime ∧
      sh1.arrivalDateTime = sh.arrivalDateTime ∧
      sh1.shipmentUUID = sh.shipmentUUID ∧
      sh1.shipmentProvider = sh.shipmentProvider ∧
      sh1.source = sh.source ∧ sh1.destination = sh.destination ∧
      sh1.vehicleUUID = sh.vehicleUUID ∧
      sh1.vehicleOperator = sh.vehicleOperator ∧
      sh1.mspid = sh.mspid ∧
      StateList.getState s1 (Shipment.key uuid) = some sh1 ∧
      ∀ k', k' ≠ Shipment.key uuid → s1 k' = store k' := by
  have hres : updateLocationTemp store ctx uuid ts loc temp =
      .ok (StateStore.put store (Shipment.key uuid)
          { sh with
            currentLocation := some loc
            currentTemp := some temp
            timestamp := some ts },
        { sh with
          currentLocation := some loc
          currentTemp := some temp
          timestamp := some ts }) := by
    simp only [updateLocationTemp, hsh]
    rfl
  refine ⟨_, _, hres, rfl, rfl, rfl, rfl, rfl, rfl, rfl, rfl, rfl, rfl,
    rfl, rfl, rfl, getState_put_self _ _ _, ?_⟩
  intro k' hk'
  exact put_other store (Shipment.key uuid) k' _ hk'

/-- Fixture for the C9 witness: a shipment that has already left its
source. -/
def c9ship : Shipment :=
  { Shipment.createInstance "S9" "UPS" "NYC" "BOS" with
    currentState := some .LEFTSOURCE
    shipDateTime := some "2021-03-02"
    vehicleUUID := some "V9"
    vehicleOperator := some "Jo"
    currentLocation := some "NYC"
    currentTemp := some "3"
    timestamp := some "2021-03-02" }

/-- Fixture store holding `c9ship`. -/
def c9store : StateStore Shipment :=
  StateStore.empty.put (Shipment.key "S9") c9ship

/-- C9 witness: the frame theorem applied to a concrete shipped
shipment. -/
theorem c9_witness :
    StateList.getState c9store (Shipment.key "S9") = some c9ship ∧
    (∃ s1 sh1, updateLocationTemp c9store "Org3MSP" "S9" "2021-03-05"
        "Hartford" "4" = .ok (s1, sh1) ∧
      sh1.currentLocation = some "Hartford" ∧ sh1.currentTemp = some "4" ∧
      sh1.timestamp = some "2021-03-05" ∧
      sh1.currentState = c9ship.currentState ∧
      sh1.shipDateTime = c9ship.shipDateTime ∧
      sh1.arrivalDateTime = c9ship.arrivalDateTime ∧
      sh1.shipmentUUID = c9ship.shipmentUUID ∧
      sh1.shipmentProvider = c9ship.shipmentProvider ∧
      sh1.source = c9ship.source ∧ sh1.destination = c9ship.destination ∧
      sh1.vehicleUUID = c9ship.vehicleUUID ∧
      sh1.vehicleOperator = c9ship.vehicleOperator ∧
      sh1.mspid = c9ship.mspid ∧
      StateList.getState s1 (Shipment.key "S9") = some sh1 ∧
      ∀ k', k' ≠ Shipment.key "S9" → s1 k' = c9store k') := by
  have hsh : StateList.getState c9store (Shipment.key "S9") = some c9ship :=
    by decide
  exact ⟨hsh, c9_updateLocationTemp_frame c9store "Org3MSP" "S9"
    "2021-03-05" "Hartford" "4" c9ship hsh⟩

/-- C10: buying a stored VaccineBatch fails with an error when the
supplied currentOwner differs from the stored purchaser (nothing is
persisted); when they agree it sets purchaser to newOwner, purchaseDate
and price, stores the result, and leaves currentState and every other
field unchanged. -/
theorem c10_buy_owner_check (store : StateStore VaccineBatch)
    (batchNumber manufacturer : String) (b : VaccineBatch)
    (hb : StateList.getState store
      (VaccineBatch.key batchNumber manufacturer) = some b) :
    (∀ ctx currentOwner newOwner price date,
      b.purchaser ≠ some currentOwner →
      ∃ e, VaccineBatchContract.buy store ctx batchNumber manufacturer
        currentOwner newOwner price date = .error e) ∧
    (∀ ctx currentOwner newOwner price date,
      b.purchaser = some currentOwner →
      ∃ s1 b1, VaccineBatchContract.buy store ctx batchNumber manufacturer
          currentOwner newOwner price date = .ok (s1, b1) ∧
        b1.purchaser = some newOwner ∧ b1.purchaseDate = some date ∧
        b1.price = some price ∧
        b1.currentState = b.currentState ∧ b1.mspid = b.mspid ∧
        b1.vaccineName = b.vaccineName ∧ b1.batchNumber = b.batchNumber ∧
        b1.quantity = b.quantity ∧ b1.manufacturer = b.manufacturer ∧
        b1.manufactureDate = b.manufactureDate ∧
        b1.approver = b.approver ∧
        b1.shippingProvider = b.shippingProvider ∧
        b1.shipmentUUID = b.shipmentUUID ∧
        b1.temperature = b.temperature ∧ b1.timestamp = b.timestamp ∧
        b1.entityAllocated = b.entityAllocated ∧ b1.ready = b.ready ∧
        b1.rawMaterialBatchSet = b.rawMaterialBatchSet ∧
        StateList.getState s1 (VaccineBatch.key batchNumber manufacturer) =
          some b1) := by
  constructor
  · intro ctx currentOwner newOwner price date hne
    refine ⟨.referenceError "issuer is not defined", ?_⟩
    simp only [VaccineBatchContract.buy, hb]
    rw [if_pos hne]
  · intro ctx currentOwner newOwner price date heq
    have hres : VaccineBatchContract.buy store ctx batchNumber manufacturer
        currentOwner newOwner price date =
        .ok (StateStore.put store
            (VaccineBatch.key batchNumber manufacturer)
            { b with
              purchaser := some newOwner
              purchaseDate := some date
              price := some price },
          { b with
            purchaser := some newOwner
            purchaseDate := some date
            price := some price }) := by
      simp only [VaccineBatchContract.buy, hb]
      rw [if_neg (by simp [heq])]
      rfl
    exact ⟨_, _, hres, rfl, rfl, rfl, rfl, rfl, rfl, rfl, rfl, rfl, rfl,
      rfl, rfl, rfl, rfl, rfl, rfl, rfl, rfl, getState_put_self _ _ _⟩

/-- Fixture for the C10 witness: a warehoused batch owned by its
manufacturer. -/
def c10batch : VaccineBatch :=
  { VaccineBatch.createInstance "VaxA" "B10" "100" "M1" "2021-01-01" with
    currentState := some .WAREHOUSED
    mspid := some "Org1MSP" }

/-- Fixture store holding `c10batch`. -/
def c10store : StateStore VaccineBatch :=
  StateStore.empty.put (VaccineBatch.key "B10" "M1") c10batch

/-- C10 witness: both branches of the buy theorem at concrete inputs. -/
theorem c10_witness :
    StateList.getState c10store (VaccineBatch.key "B10" "M1") =
      some c10batch ∧
    c10batch.purchaser ≠ some "Moderna" ∧
    (∃ e, VaccineBatchContract.buy c10store "Org2MSP" "B10" "M1" "Moderna"
      "CVS" "900" "2021-02-02" = .error e) ∧
    c10batch.purchaser = some "M1" ∧
    (∃ s1 b1, VaccineBatchContract.buy c10store "Org2MSP" "B10" "M1" "M1"
        "CVS" "900" "2021-02-02" = .ok (s1, b1) ∧
      b1.purchaser = some "CVS" ∧ b1.purchaseDate = some "2021-02-02" ∧
      b1.price = some "900" ∧
      b1.currentState = c10batch.currentState ∧ b1.mspid = c10batch.mspid ∧
      b1.vaccineName = c10batch.vaccineName ∧
      b1.batchNumber = c10batch.batchNumber ∧
      b1.quantity = c10batch.quantity ∧
      b1.manufacturer = c10batch.manufacturer ∧
      b1.manufactureDate = c10batch.manufactureDate ∧
      b1.approver = c10batch.approver ∧
      b1.shippingProvider = c10batch.shippingProvider ∧
      b1.shipmentUUID = c10batch.shipmentUUID ∧
      b1.temperature = c10batch.temperature ∧
      b1.timestamp = c10batch.timestamp ∧
      b1.entityAllocated = c10batch.entityAllocated ∧
      b1.ready = c10batch.ready ∧
      b1.rawMaterialBatchSet = c10batch.rawMaterialBatchSet ∧
      StateList.getState s1 (VaccineBatch.key "B10" "M1") = some b1) := by
  have hb : StateList.getState c10store (VaccineBatch.key "B10" "M1") =
      some c10batch := by decide
  refine ⟨hb, by decide, ?_, by decide, ?_⟩
  · exact (c10_buy_owner_check c10store "B10" "M1" c10batch hb).1 "Org2MSP"
      "Moderna" "CVS" "900" "2021-02-02" (by decide)
  · exact (c10_buy_owner_check c10store "B10" "M1" c10batch hb).2 "Org2MSP"
      "M1" "CVS" "900" "2021-02-02" (by decide)

/-- Fixture for C1: a batch already stored at key (B7, Pfizer). -/
def c1oldBatch : VaccineBatch :=
  { VaccineBatch.createInstance "VaxA" "B7" "100" "Pfizer" "2021-01-01" with
    currentState := some .WAREHOUSED
    mspid := some "Org1MSP" }

/-- Fixture store holding `c1oldBatch`. -/
def c1store : StateStore VaccineBatch :=
  StateStore.empty.put (VaccineBatch.key "B7" "Pfizer") c1oldBatch

/-- C1 counterexample: with a record already stored at the composite key
(B7, Pfizer), the VaccineBatch issue create operation does NOT fail; it
succeeds and the stored record changes (the old record is overwritten),
refuting the claim that every create operation rejects an existing key
and leaves the stored record unchanged. -/
theorem c1_counterexample :
    StateList.getState c1store (VaccineBatch.key "B7" "Pfizer") =
      some c1oldBatch ∧
    ∃ s1 b1, VaccineBatchContract.issue c1store "Org1MSP" "VaxA" "B7"
        "999" "Pfizer" "2021-02-02" = .ok (s1, b1) ∧
      StateList.getState s1 (VaccineBatch.key "B7" "Pfizer") = some b1 ∧
      b1 ≠ c1oldBatch := by
  refine ⟨by decide, _, _, rfl, getState_put_self _ _ _, by decide⟩

/-- C1 amended: no create operation rejects an existing composite key.
The guarded createMaterial variant's exists-check compares the `length`
of a deserialized record, which is undefined, so it never fires; the
VaccineBatch issue operation has no check at all. A create over an
existing key succeeds and overwrites the stored record, so each
namespace still holds at most one record per composite key (the store
maps each key to at most one record), but by overwrite rather than by
rejection. -/
theorem c1_creates_overwrite :
    (∀ (store : StateStore RawMaterial) ctx materialName batchNumber
        quantity manufacturer manufactureDate m0,
      StateList.getState store (RawMaterial.key manufacturer batchNumber) =
        some m0 →
      ∃ s1 m1, createMaterial store ctx materialName batchNumber quantity
          manufacturer manufactureDate = .ok (s1, m1) ∧
        StateList.getState s1 (RawMaterial.key manufacturer batchNumber) =
          some m1) ∧
    (∀ (store : StateStore VaccineBatch) ctx vaccineName batchNumber
        quantity manufacturer manufactureDate b0,
      StateList.getState store (VaccineBatch.key batchNumber manufacturer) =
        some b0 →
      ∃ s1 b1, VaccineBatchContract.issue store ctx vaccineName batchNumber
          quantity manufacturer manufactureDate = .ok (s1, b1) ∧
        StateList.getState s1 (VaccineBatch.key batchNumber manufacturer) =
          some b1) := by
  constructor
  · intro store ctx materialName batchNumber quantity manufacturer
      manufactureDate m0 hm0
    have hres : createMaterial store ctx materialName batchNumber quantity
        manufacturer manufactureDate =
        .ok (StateStore.put store (RawMaterial.key manufacturer batchNumber)
            { RawMaterial.createInstance materialName batchNumber quantity
                manufacturer manufactureDate with mspid := some ctx },
          { RawMaterial.createInstance materialName batchNumber quantity
              manufacturer manufactureDate with mspid := some ctx }) := by
      simp [createMaterial, rawMaterialExistsCheck_eq_false,
        StateList.addState]
    exact ⟨_, _, hres, getState_put_self _ _ _⟩
  · intro store ctx vaccineName batchNumber quantity manufacturer
      manufactureDate b0 hb0
    exact ⟨_, _, rfl, getState_put_self _ _ _⟩

/-- Fixture for the C1 witness: a raw material already stored at key
(M1, B1). -/
def c1oldMaterial : RawMaterial :=
  RawMaterial.createInstance "sucrose" "B1" "10" "M1" "2021-01-01"

/-- Fixture store holding `c1oldMaterial`. -/
def c1rmStore : StateStore RawMaterial :=
  StateStore.empty.put (RawMaterial.key "M1" "B1") c1oldMaterial

/-- C1 witness: the amended overwrite behavior at a concrete occupied
key. -/
theorem c1_witness :
    StateList.getState c1rmStore (RawMaterial.key "M1" "B1") =
      some c1oldMaterial ∧
    (∃ s1 m1, createMaterial c1rmStore "Org1MSP" "starch" "B1" "25" "M1"
        "2021-05-05" = .ok (s1, m1) ∧
      StateList.getState s1 (RawMaterial.key "M1" "B1") = some m1) := by
  have h : StateList.getState c1rmStore (RawMaterial.key "M1" "B1") =
      some c1oldMaterial := by decide
  exact ⟨h, c1_creates_overwrite.1 c1rmStore "Org1MSP" "starch" "B1" "25"
    "M1" "2021-05-05" c1oldMaterial h⟩

/-- Fixture for C6: a purchased raw material whose owner-MSP was stamped
by Org1. -/
def c6material : RawMaterial :=
  { RawMaterial.createInstance "sucrose" "B6" "10" "M6" "2021-01-01" with
    purchaser := some "Pfizer"
    purchaseDate := some "2021-02-02"
    price := some "500"
    mspid := some "Org1MSP" }

/-- Fixture store holding `c6material`. -/
def c6store : StateStore RawMaterial :=
  StateStore.empty.put (RawMaterial.key "M6" "B6") c6material

/-- C6 counterexample: addMaterial invoked by Org2 on a record whose
owner-MSP is Org1 succeeds and persists the record with the owner-MSP
still Org1, refuting the claim that every domain transition records the
invoking organization's MSP ID on the record before persisting it. -/
theorem c6_counterexample :
    StateList.getState c6store (RawMaterial.key "M6" "B6") =
      some c6material ∧
    ∃ s1 m1, addMaterial c6store "Org2MSP" "M6" "B6" "2021-03-03" =
        .ok (s1, m1) ∧
      StateList.getState s1 (RawMaterial.key "M6" "B6") = some m1 ∧
      m1.mspid = some "Org1MSP" ∧ m1.mspid ≠ some "Org2MSP" := by
  have hm : StateList.getState c6store (RawMaterial.key "M6" "B6") =
      some c6material := by decide
  have hres : addMaterial c6store "Org2MSP" "M6" "B6" "2021-03-03" =
      .ok (StateStore.put c6store (RawMaterial.key "M6" "B6")
          { c6material with dateMixedIn := some "2021-03-03" },
        { c6material with dateMixedIn := some "2021-03-03" }) := by
    simp only [addMaterial, hm]
    rw [if_neg (by decide)]
    rfl
  exact ⟨hm, _, _, hres, getState_put_self _ _ _, by decide, by decide⟩

/-- C6 amended: only the create-side operations createMaterial,
purchaseMaterial and VaccineBatch issue stamp the invoking
organization's MSP ID on the record they persist; addMaterial,
orderShipment (whose stamping block is commented out, leaving the stored
owner-MSP null), shipShipment, updateLocationTemp, shipmentArrival, and
VaccineBatch buy / ship / arrived persist the record without recording
the invoker's MSP (the stored owner-MSP stays whatever it was before
the call). -/
theorem c6_msp_stamping_only_creates :
    (∀ (store : StateStore RawMaterial) ctx materialName batchNumber
        quantity manufacturer manufactureDate,
      ∃ s1 m1, createMaterial store ctx materialName batchNumber quantity
          manufacturer manufactureDate = .ok (s1, m1) ∧
        m1.mspid = some ctx) ∧
    (∀ (store : StateStore RawMaterial) ctx manufacturer batchNumber
        purchaser price date m,
      StateList.getState store (RawMaterial.key manufacturer batchNumber) =
        some m → m.purchaser = none →
      ∃ s1 m1, purchaseMaterial store ctx manufacturer batchNumber
          purchaser price date = .ok (s1, m1) ∧
        m1.mspid = some ctx) ∧
    (∀ (store : StateStore VaccineBatch) ctx vaccineName batchNumber
        quantity manufacturer manufactureDate,
      ∃ s1 b1, VaccineBatchContract.issue store ctx vaccineName batchNumber
          quantity manufacturer manufactureDate = .ok (s1, b1) ∧
        b1.mspid = some ctx) ∧
    (∀ (store : StateStore RawMaterial) ctx manufacturer batchNumber
        dateTimeAdded m,
      StateList.getState store (RawMaterial.key manufacturer batchNumber) =
        some m → m.dateMixedIn = none →
      ∃ s1 m1, addMaterial store ctx manufacturer batchNumber
          dateTimeAdded = .ok (s1, m1) ∧
        m1.mspid = m.mspid) ∧
    (∀ (store : StateStore Shipment) ctx uuid provider src dst,
      ∃ s1 sh, orderShipment store ctx uuid provider src dst =
          .ok (s1, sh) ∧ sh.mspid = none) ∧
    (∀ (store : StateStore Shipment) ctx uuid veh src ts op temp sh,
      StateList.getState store (Shipment.key uuid) = some sh →
      sh.shipDateTime = none →
      ∃ s1 sh1, shipShipment store ctx uuid veh src ts op temp =
          .ok (s1, sh1) ∧ sh1.mspid = sh.mspid) ∧
    (∀ (store : StateStore Shipment) ctx uuid ts loc temp sh,
      StateList.getState store (Shipment.key uuid) = some sh →
      ∃ s1 sh1, updateLocationTemp store ctx uuid ts loc temp =
          .ok (s1, sh1) ∧ sh1.mspid = sh.mspid) ∧
    (∀ (store : StateStore Shipment) ctx uuid ts sh,
      StateList.getState store (Shipment.key uuid) = some sh →
      sh.arrivalDateTime = none →
      ∃ s1 sh1, shipmentArrival store ctx uuid ts = .ok (s1, sh1) ∧
        sh1.mspid = sh.mspid) ∧
    (∀ (store : StateStore VaccineBatch) ctx batchNumber manufacturer
        currentOwner newOwner price date b,
      StateList.getState store (VaccineBatch.key batchNumber manufacturer) =
        some b → b.purchaser = some currentOwner →
      ∃ s1 b1, VaccineBatchContract.buy store ctx batchNumber manufacturer
          currentOwner newOwner price date = .ok (s1, b1) ∧
        b1.mspid = b.mspid) ∧
    (∀ (store : StateStore VaccineBatch) ctx batchNumber manufacturer
        shippingProvider shipmentUUID b,
      StateList.getState store (VaccineBatch.key batchNumber manufacturer) =
        some b →
      ∃ s1 b1, VaccineBatchContract.ship store ctx batchNumber manufacturer
          shippingProvider shipmentUUID = .ok (s1, b1) ∧
        b1.mspid = b.mspid) ∧
    (∀ (store : StateStore VaccineBatch) ctx batchNumber manufacturer
        arrivalDate b,
      StateList.getState store (VaccineBatch.key batchNumber manufacturer) =
        some b →
      ∃ s1 b1, VaccineBatchContract.arrived store ctx batchNumber
          manufacturer arrivalDate = .ok (s1, b1) ∧
        b1.mspid = b.mspid) := by
  refine ⟨?_, ?_, ?_, ?_, ?_, ?_, ?_, ?_, ?_, ?_, ?_⟩
  · intro store ctx materialName batchNumber quantity manufacturer
      manufactureDate
    have hres : createMaterial store ctx materialName batchNumber quantity
        manufacturer manufactureDate =
        .ok (StateStore.put store (RawMaterial.key manufacturer batchNumber)
            { RawMaterial.createInstance materialName batchNumber quantity
                manufacturer manufactureDate with mspid := some ctx },
          { RawMaterial.createInstance materialName batchNumber quantity
              manufacturer manufactureDate with mspid := some ctx }) := by
      simp [createMaterial, rawMaterialExistsCheck_eq_false,
        StateList.addState]
    exact ⟨_, _, hres, rfl⟩
  · intro store ctx manufacturer batchNumber purchaser price date m hm hp
    have hres : purchaseMaterial store ctx manufacturer batchNumber
        purchaser price date =
        .ok (StateStore.put store (RawMaterial.key manufacturer batchNumber)
            { m with
              purchaser := some purchaser
              purchaseDate := some date
              price := some price
              mspid := some ctx },
          { m with
            purchaser := some purchaser
            purchaseDate := some date
            price := some price
            mspid := some ctx }) := by
      simp only [purchaseMaterial, hm]
      rw [if_neg (by simp [hp])]
      rfl
    exact ⟨_, _, hres, rfl⟩
  · intro store ctx vaccineName batchNumber quantity manufacturer
      manufactureDate
    exact ⟨_, _, rfl, rfl⟩
  · intro store ctx manufacturer batchNumber dateTimeAdded m hm hd
    have hres : addMaterial store ctx manufacturer batchNumber
        dateTimeAdded =
        .ok (StateStore.put store (RawMaterial.key manufacturer batchNumber)
            { m with dateMixedIn := some dateTimeAdded },
          { m with dateMixedIn := some dateTimeAdded }) := by
      simp only [addMaterial, hm]
      rw [if_neg (by simp [hd])]
      rfl
    exact ⟨_, _, hres, rfl⟩
  · intro store ctx uuid provider src dst
    exact ⟨_, _, rfl, rfl⟩
  · intro store ctx uuid veh src ts op temp sh hsh h0
    have hres : shipShipment store ctx uuid veh src ts op temp =
        .ok (StateStore.put store (Shipment.key uuid)
            { sh with
              currentState := some .LEFTSOURCE
              shipDateTime := some ts
              vehicleUUID := some veh
              vehicleOperator := some op
              currentLocation := some src
              currentTemp := some temp
              timestamp := some ts },
          { sh with
            currentState := some .LEFTSOURCE
            shipDateTime := some ts
            vehicleUUID := some veh
            vehicleOperator := some op
            currentLocation := some src
            currentTemp := some temp
            timestamp := some ts }) := by
      simp only [shipShipment, hsh]
      rw [if_neg (by simp [h0])]
      rfl
    exact ⟨_, _, hres, rfl⟩
  · intro store ctx uuid ts loc temp sh hsh
    have hres : updateLocationTemp store ctx uuid ts loc temp =
        .ok (StateStore.put store (Shipment.key uuid)
            { sh with
              currentLocation := some loc
              currentTemp := some temp
              timestamp := some ts },
          { sh with
            currentLocation := some loc
            currentTemp := some temp
            timestamp := some ts }) := by
      simp only [updateLocationTemp, hsh]
      rfl
    exact ⟨_, _, hres, rfl⟩
  · intro store ctx uuid ts sh hsh h0
    have hres : shipmentArrival store ctx uuid ts =
        .ok (StateStore.put store (Shipment.key uuid)
            { sh with
              currentState := some .ARRIVEDDEST
              arrivalDateTime := some ts },
          { sh with
            currentState := some .ARRIVEDDEST
            arrivalDateTime := some ts }) := by
      simp only [shipmentArrival, hsh]
      rw [if_neg (by simp [h0])]
      rfl
    exact ⟨_, _, hres, rfl⟩
  · intro store ctx batchNumber manufacturer currentOwner newOwner price
      date b hb heq
    have hres : VaccineBatchContract.buy store ctx batchNumber manufacturer
        currentOwner newOwner price date =
        .ok (StateStore.put store
            (VaccineBatch.key batchNumber manufacturer)
            { b with
              purchaser := some newOwner
              purchaseDate := some date
              price := some price },
          { b with
            purchaser := some newOwner
            purchaseDate := some date
            price := some price }) := by
      simp only [VaccineBatchContract.buy, hb]
      rw [if_neg (by simp [heq])]
      rfl
    exact ⟨_, _, hres, rfl⟩
  · intro store ctx batchNumber manufacturer shippingProvider shipmentUUID
      b hb
    have hres : VaccineBatchContract.ship store ctx batchNumber
        manufacturer shippingProvider shipmentUUID =
        .ok (StateStore.put store
            (VaccineBatch.key batchNumber manufacturer)
            { b with
              shippingProvider := some shippingProvider
              shipmentUUID := some shipmentUUID
              currentState := some .SHIPPED },
          { b with
            shippingProvider := some shippingProvider
            shipmentUUID := some shipmentUUID
            currentState := some .SHIPPED }) := by
      simp only [VaccineBatchContract.ship, hb]
      rfl
    exact ⟨_, _, hres, rfl⟩
  · intro store ctx batchNumber manufacturer arrivalDate b hb
    have hres : VaccineBatchContract.arrived store ctx batchNumber
        manufacturer arrivalDate =
        .ok (StateStore.put store
            (VaccineBatch.key batchNumber manufacturer)
            { b with currentState := some .ARRIVED },
          { b with currentState := some .ARRIVED }) := by
      simp only [VaccineBatchContract.arrived, hb]
      rfl
    exact ⟨_, _, hres, rfl⟩

/-- C6 witness: the non-stamping addMaterial conjunct applied to the
concrete Org1-owned record with an Org2 caller. -/
theorem c6_witness :
    StateList.getState c6store (RawMaterial.key "M6" "B6") =
      some c6material ∧
    c6material.dateMixedIn = none ∧
    (∃ s1 m1, addMaterial c6store "Org2MSP" "M6" "B6" "2021-04-04" =
        .ok (s1, m1) ∧ m1.mspid = c6material.mspid) := by
  have hm : StateList.getState c6store (RawMaterial.key "M6" "B6") =
      some c6material := by decide
  exact ⟨hm, rfl, (c6_msp_stamping_only_creates.2.2.2.1) c6store "Org2MSP" "M6"
    "B6" "2021-04-04" c6material hm rfl⟩

/-- Fixture for C4: a vaccine batch with one raw-material key in its
rawMaterialBatchSet. -/
def c4batch : VaccineBatch :=
  (VaccineBatch.createInstance "VaxA" "B4" "100" "M4"
    "2021-01-01").addRawMaterial "RM1"

/-- C4 counterexample: for a VaccineBatch whose rawMaterialBatchSet holds
a raw-material key, deserialize(serialize(x)) is not x - the Set encodes
as an empty JSON object, so the reconstructed batch has an empty
rawMaterialBatchSet. -/
theorem c4_counterexample :
    VaccineBatch.deserialize (VaccineBatch.serialize c4batch) ≠ c4batch ∧
    c4batch.rawMaterialBatchSet = ["RM1"] ∧
    (VaccineBatch.deserialize
      (VaccineBatch.serialize c4batch)).rawMaterialBatchSet = [] := by
  refine ⟨by decide, by decide, by decide⟩

/-- C4 amended: deserialize(serialize(x)) = x holds for minimal
instances (every field still at its constructor default) of all four
asset types; it fails for fully populated instances, because each
subtype constructor re-initializes its lifecycle fields after
Object.assign (RawMaterial re-nulls purchaser, purchaseDate, price,
dateMixedIn and mspid; VaccineBatch resets purchaser to the
manufacturer, re-nulls its transition fields and replaces
rawMaterialBatchSet with a fresh empty Set; Vaccine re-nulls
issueDateTime, currentState, issuer and recipient; Shipment re-nulls its
transition fields and mspid), and the Set-valued rawMaterialBatchSet is
serialized as an empty JSON object, losing its elements. -/
theorem c4_roundtrip_minimal :
    (∀ materialName batchNumber quantity manufacturer manufactureDate,
      RawMaterial.deserialize (RawMaterial.serialize
        (RawMaterial.createInstance materialName batchNumber quantity
          manufacturer manufactureDate)) =
      RawMaterial.createInstance materialName batchNumber quantity
        manufacturer manufactureDate) ∧
    (∀ vaccineName batchNumber quantity manufacturer manufactureDate,
      VaccineBatch.deserialize (VaccineBatch.serialize
        (VaccineBatch.createInstance vaccineName batchNumber quantity
          manufacturer manufactureDate)) =
      VaccineBatch.createInstance vaccineName batchNumber quantity
        manufacturer manufactureDate) ∧
    (∀ vaccineUUID batchNum expirationDateTime manufacturer,
      Vaccine.deserialize (Vaccine.serialize
        (Vaccine.createInstance vaccineUUID batchNum expirationDateTime
          manufacturer)) =
      Vaccine.createInstance vaccineUUID batchNum expirationDateTime
        manufacturer) ∧
    (∀ shipmentUUID shipmentProvider source destination,
      Shipment.deserialize (Shipment.serialize
        (Shipment.createInstance shipmentUUID shipmentProvider source
          destination)) =
      Shipment.createInstance shipmentUUID shipmentProvider source
        destination) :=
  ⟨fun _ _ _ _ _ => rfl, fun _ _ _ _ _ => rfl, fun _ _ _ _ => rfl,
    fun _ _ _ _ => rfl⟩

/-- Auxiliary invariant for getAllResults: the loop closes the iterator
exactly on the executions that return normally. -/
theorem getAllResultsAux_closed_iff (steps : List IterStep)
    (isHistory : Bool) (acc : List QueryRes) :
    (getAllResultsAux steps isHistory acc).2 = true ↔
    ∃ rs, (getAllResultsAux steps isHistory acc).1 = .ok rs := by
  induction steps generalizing acc with
  | nil => simp [getAllResultsAux]
  | cons step rest ih =>
    cases hv : step.value with
    | none => simp [getAllResultsAux, hv]
    | some v =>
      by_cases hd : step.done
      · simp [getAllResultsAux, hv, hd]
      · simp [getAllResultsAux, hv, hd, ih]

/-- Fixture for C8: a query that yields one entry and then the exhausted
iterator's final next() response, which carries done=true and no value. -/
def c8steps : List IterStep :=
  [⟨some ⟨"k1", "tx1", 5, 0, false, "v1"⟩, false⟩, ⟨none, true⟩]

/-- C8 counterexample: on this execution getAllResults exits with an
error raised while materializing (the unconditional logging dereference
of the missing res.value), and the iterator is NOT closed - refuting the
claim that the iterator is closed on every exit path. -/
theorem c8_counterexample :
    (∃ e, (getAllResults c8steps false).1 = .error e) ∧
    (getAllResults c8steps false).2 = false :=
  ⟨⟨_, rfl⟩, rfl⟩

/-- C8 amended: getAllResults closes its iterator exactly on the
normal-completion exit path (the one returning the materialized array);
any execution that raises while materializing - in particular one whose
final next() response carries no value, which the unguarded logging
dereference of res.value.value turns into a TypeError - propagates the
error and leaves the iterator unclosed. -/
theorem c8_close_iff_ok (steps : List IterStep) (isHistory : Bool) :
    (getAllResults steps isHistory).2 = true ↔
    ∃ rs, (getAllResults steps isHistory).1 = .ok rs :=
  getAllResultsAux_closed_iff steps isHistory []
